import Mathlib

/-!
Shallow embedding of `src/middleware_service.py`: a per-room HVAC middleware
that ingests MQTT temperature readings, tracks per-room sensor and API fault
flags, issues retried backend calls, and runs a periodic control loop.

Python dicts are modelled by `PyDict`: an insertion-ordered key list together
with a total valuation (meaningful only on the keys).  Reads `d[k]` that can
raise `KeyError` are modelled with `PyDict.get?`; the control loop propagates
such a `none` as an aborted cycle, matching the `except Exception` handler
around the loop body in `MiddlewareService.run`.  Backend I/O is modelled by
an oracle giving the outcome of each HTTP attempt.  Temperatures are rationals
(the claims under study do not depend on binary floating-point rounding).
-/

namespace Middleware

/-- The configured room list `ROOMS` of middleware_service.py. -/
def ROOMS : List String := ["room1", "room2", "room3", "room4", "room5"]

/-- The constant `Invalid_Data_Limit` (invalid readings before sensor error). -/
def Invalid_Data_Limit : Nat := 3

/-- The constant `API_Rerty_Limit` (sic) bounding HTTP attempts. -/
def API_Rerty_Limit : Nat := 3

/-- A Python dict with string keys: the insertion-ordered key list plus a
total valuation, meaningful only on `keys`. -/
structure PyDict (α : Type) where
  keys : List String
  val : String → α

/-- Python `d[k] = v`: overwrite if present, append the key otherwise. -/
def PyDict.set {α : Type} (d : PyDict α) (k : String) (v : α) : PyDict α :=
  { keys := if k ∈ d.keys then d.keys else d.keys ++ [k]
    val := fun k2 => if k2 = k then v else d.val k2 }

/-- Python `d[k]` as a read: `none` models a `KeyError`. -/
def PyDict.get? {α : Type} (d : PyDict α) (k : String) : Option α :=
  if k ∈ d.keys then some (d.val k) else none

/-- A dict mapping every key of `ks` to the constant `v` (the comprehensions
in `MiddlewareService.__init__`). -/
def PyDict.ofConst {α : Type} (ks : List String) (v : α) : PyDict α :=
  { keys := ks, val := fun _ => v }

/-- The mutable per-room state of a `MiddlewareService` instance. -/
structure MiddlewareService where
  temperatures : PyDict ℚ
  hvac_active : PyDict (Option Bool)
  invalid_counts : PyDict Nat
  sensor_error : PyDict Bool
  api_error : PyDict Bool

/-- `MiddlewareService.__init__`: every configured room starts at temperature
0.0, HVAC state `None`, zero invalid readings and no faults. -/
def MiddlewareService.init : MiddlewareService :=
  { temperatures := PyDict.ofConst ROOMS 0
    hvac_active := PyDict.ofConst ROOMS none
    invalid_counts := PyDict.ofConst ROOMS 0
    sensor_error := PyDict.ofConst ROOMS false
    api_error := PyDict.ofConst ROOMS false }

/-- Outcome of `float(msg.payload.decode())`: either a parsed value, or a
`ValueError` (`unparsable`). -/
inductive Payload
  | parsed (v : ℚ)
  | unparsable
deriving DecidableEq

/-- Python `s.split(sep)` with an explicit one-character separator. -/
def splitCharsOn (sep : Char) : List Char → List Char → List String
  | [], acc => [String.mk acc.reverse]
  | c :: cs, acc =>
    if c = sep then String.mk acc.reverse :: splitCharsOn sep cs []
    else splitCharsOn sep cs (c :: acc)

/-- Python `s.split("/")` (the topic parsing in `on_message`). -/
def pySplit (s : String) (sep : Char) : List String :=
  splitCharsOn sep s.data []

/-- The `except (ValueError, IndexError)` handler of `on_message`: re-extract
the room (when the topic allows it), and only for a room already present in
`invalid_counts` bump the counter, raising the sensor error at the limit. -/
def handle_invalid (s : MiddlewareService) (room? : Option String) :
    MiddlewareService :=
  match room? with
  | none => s
  | some room =>
    if room ∈ s.invalid_counts.keys then
      let c := s.invalid_counts.val room + 1
      let s1 := { s with invalid_counts := s.invalid_counts.set room c }
      if c ≥ Invalid_Data_Limit then
        { s1 with sensor_error := s1.sensor_error.set room true }
      else s1
    else s

/-- `MiddlewareService.on_message`: extract the room from the topic's second
`/`-segment, parse the payload, and either store a valid in-range reading
(resetting the invalid counter and sensor error) or fall through to the
invalid-data handler. -/
def on_message (s : MiddlewareService) (topic : String) (payload : Payload) :
    MiddlewareService :=
  let room? := (pySplit topic '/')[1]?
  match room?, payload with
  | some room, .parsed temp =>
    if 0 ≤ temp ∧ temp ≤ 50 then
      { s with
        temperatures := s.temperatures.set room temp
        invalid_counts := s.invalid_counts.set room 0
        sensor_error := s.sensor_error.set room false }
    else
      handle_invalid s room?
  | _, _ => handle_invalid s room?

/-- Outcome of one `requests.get` attempt in `poll_hvac_status`: a parsed
JSON `status` field (`none` when absent), a `RequestException`, or an
exception outside `RequestException` (JSON decoding, ...), which escapes the
retry loop into the outer catch-all. -/
inductive PollAttempt
  | ok (status : Option String)
  | fail
  | crash
deriving DecidableEq

/-- Outcome of one `requests.post` attempt in `send_hvac_command`; both
`except` clauses there retry, so every exception is `fail`. -/
inductive SendAttempt
  | ok
  | fail
deriving DecidableEq

/-- The `for attempt in range(API_Rerty_Limit)` loop of `poll_hvac_status`,
with `r` attempts remaining.  Success stores `status == "active"` and clears
the API error; exhaustion sets the API error; a `crash` leaves the state as
the outer catch-all does. -/
def poll_attempts (room : String) (oracle : Nat → PollAttempt) :
    Nat → Nat → MiddlewareService → MiddlewareService
  | _, 0, s => { s with api_error := s.api_error.set room true }
  | attempt, r + 1, s =>
    match oracle attempt with
    | .ok status =>
      { s with
        hvac_active := s.hvac_active.set room (some (decide (status = some "active")))
        api_error := s.api_error.set room false }
    | .fail => poll_attempts room oracle (attempt + 1) r s
    | .crash => s

/-- `MiddlewareService.poll_hvac_status`. -/
def poll_hvac_status (s : MiddlewareService) (room : String)
    (oracle : Nat → PollAttempt) : MiddlewareService :=
  poll_attempts room oracle 0 API_Rerty_Limit s

/-- The retry loop of `send_hvac_command`, with `r` attempts remaining.
Success clears the API error; exhaustion sets it.  The command string
(`activate`/`deactivate`) only affects the request body, not the state. -/
def send_attempts (room : String) (oracle : Nat → SendAttempt) :
    Nat → Nat → MiddlewareService → MiddlewareService
  | _, 0, s => { s with api_error := s.api_error.set room true }
  | attempt, r + 1, s =>
    match oracle attempt with
    | .ok => { s with api_error := s.api_error.set room false }
    | .fail => send_attempts room oracle (attempt + 1) r s

/-- `MiddlewareService.send_hvac_command`. -/
def send_hvac_command (s : MiddlewareService) (room : String)
    (activate : Bool) (oracle : Nat → SendAttempt) : MiddlewareService :=
  send_attempts room oracle 0 API_Rerty_Limit s

/-- The per-room body of the control loop in `MiddlewareService.run`.
`temp` is this room's entry of the `temps` snapshot.  `none` models a
`KeyError` on one of the dict reads, which the surrounding
`except Exception` turns into an aborted cycle.  The returned list records
the backend command calls issued (room, activate) — the loop sets
`hvac_active` unconditionally after `send_hvac_command` returns. -/
def cycle_room (s : MiddlewareService) (room : String) (temp : ℚ)
    (oracle : Bool → Nat → SendAttempt) :
    Option (MiddlewareService × List (String × Bool)) :=
  match s.sensor_error.get? room with
  | none => none
  | some true => some (s, [])
  | some false =>
    match s.api_error.get? room with
    | none => none
    | some true => some (s, [])
    | some false =>
      match s.hvac_active.get? room with
      | none => none
      | some active =>
        if temp > 30 ∧ active ≠ some true then
          let s1 := send_hvac_command s room true (oracle true)
          some ({ s1 with hvac_active := s1.hvac_active.set room (some true) },
            [(room, true)])
        else if ¬ temp > 30 ∧ active ≠ some false then
          let s1 := send_hvac_command s room false (oracle false)
          some ({ s1 with hvac_active := s1.hvac_active.set room (some false) },
            [(room, false)])
        else some (s, [])

/-- One pass over the remaining rooms of the `temps` snapshot, accumulating
issued commands; an exception (`none`) aborts the rest of the cycle. -/
def run_cycle_aux (oracle : String → Bool → Nat → SendAttempt)
    (tempOf : String → ℚ) :
    List String → MiddlewareService → List (String × Bool) →
    MiddlewareService × List (String × Bool)
  | [], s, log => (s, log)
  | room :: rest, s, log =>
    match cycle_room s room (tempOf room) (oracle room) with
    | none => (s, log)
    | some (s1, calls) => run_cycle_aux oracle tempOf rest s1 (log ++ calls)

/-- One iteration of the `while True` control loop of `MiddlewareService.run`
(the `temps = self.temperatures.copy()` snapshot drives the iteration). -/
def run_cycle (s : MiddlewareService)
    (oracle : String → Bool → Nat → SendAttempt) :
    MiddlewareService × List (String × Bool) :=
  run_cycle_aux oracle s.temperatures.val s.temperatures.keys s []

/-- A sequence of control-loop cycles, one backend oracle per cycle,
concatenating the issued commands. -/
def run_cycles (s : MiddlewareService) :
    List (String → Bool → Nat → SendAttempt) →
    MiddlewareService × List (String × Bool)
  | [] => (s, [])
  | o :: os =>
    let p := run_cycle s o
    let q := run_cycles p.1 os
    (q.1, p.2 ++ q.2)

/-- All five per-room state fields of one room, as read by `PyDict.get?`. -/
def entityView (s : MiddlewareService) (e : String) :
    Option ℚ × Option (Option Bool) × Option Nat × Option Bool × Option Bool :=
  (s.temperatures.get? e, s.hvac_active.get? e, s.invalid_counts.get? e,
    s.sensor_error.get? e, s.api_error.get? e)

/-- Room states on which the loop body cannot reach `send_hvac_command`:
a sensor-error or API-error flag that is missing or set, a missing
`hvac_active` entry, or an `hvac_active` value already matching the
desired state for temperature `temp`. -/
def entitySkips (s : MiddlewareService) (e : String) (temp : ℚ) : Prop :=
  s.sensor_error.get? e ≠ some false ∨
  s.api_error.get? e ≠ some false ∨
  s.hvac_active.get? e = none ∨
  s.hvac_active.get? e = some (some (decide (temp > 30)))

/-- A backend oracle whose every command attempt raises a request error. -/
def failOracle : String → Bool → Nat → SendAttempt := fun _ _ _ => SendAttempt.fail

/-- Scenario: room1 reads 35 °C and its HVAC is commanded off. -/
def s_room1_hot_inactive : MiddlewareService :=
  { MiddlewareService.init with
    temperatures := MiddlewareService.init.temperatures.set "room1" 35
    hvac_active := MiddlewareService.init.hvac_active.set "room1" (some false) }

/-- Scenario: room1 reads 45 °C but its sensor is marked faulty. -/
def s_room1_sensor_fault : MiddlewareService :=
  { MiddlewareService.init with
    temperatures := MiddlewareService.init.temperatures.set "room1" 45
    sensor_error := MiddlewareService.init.sensor_error.set "room1" true }

/-- Scenario: room1 reads 35 °C and its HVAC is already commanded on. -/
def s_room1_hot_active : MiddlewareService :=
  { MiddlewareService.init with
    temperatures := MiddlewareService.init.temperatures.set "room1" 35
    hvac_active := MiddlewareService.init.hvac_active.set "room1" (some true) }

/-- Scenario: room2 holds a prior valid reading of 22 °C. -/
def s_room2_temp22 : MiddlewareService :=
  { MiddlewareService.init with
    temperatures := MiddlewareService.init.temperatures.set "room2" 22 }

/-- Scenario: room1 is in backend-fault state. -/
def s_room1_api_fault : MiddlewareService :=
  { MiddlewareService.init with
    api_error := MiddlewareService.init.api_error.set "room1" true }

/-! ### Basic dictionary lemmas -/

theorem PyDict.get?_set_self {α : Type} (d : PyDict α) (k : String) (v : α) :
    (d.set k v).get? k = some v := by
  by_cases h : k ∈ d.keys <;> simp [PyDict.set, PyDict.get?, h]

theorem PyDict.get?_set_ne {α : Type} (d : PyDict α) (k k2 : String) (v : α)
    (h : k2 ≠ k) : (d.set k v).get? k2 = d.get? k2 := by
  by_cases hk : k ∈ d.keys <;> simp [PyDict.set, PyDict.get?, hk, h]

theorem PyDict.get?_eq_some_iff {α : Type} {d : PyDict α} {k : String} {v : α} :
    d.get? k = some v ↔ k ∈ d.keys ∧ d.val k = v := by
  unfold PyDict.get?
  by_cases h : k ∈ d.keys <;> simp [h]

theorem PyDict.mem_keys_set {α : Type} (d : PyDict α) (k k2 : String) (v : α) :
    k2 ∈ (d.set k v).keys ↔ k2 ∈ d.keys ∨ k2 = k := by
  by_cases hk : k ∈ d.keys
  · simp only [PyDict.set, if_pos hk]
    constructor
    · exact Or.inl
    · rintro (h | rfl)
      · exact h
      · exact hk
  · simp [PyDict.set, if_neg hk]

/-! ### Backend-client lemmas: exhausting retries versus a first success -/

theorem send_attempts_fail_eq (room : String) (o : Nat → SendAttempt)
    (hf : ∀ i, o i = SendAttempt.fail) :
    ∀ (r attempt : Nat) (s : MiddlewareService),
      send_attempts room o attempt r s =
        { s with api_error := s.api_error.set room true } := by
  intro r
  induction r with
  | zero => intro attempt s; rfl
  | succ r ih =>
    intro attempt s
    simp only [send_attempts]
    rw [hf attempt]
    exact ih (attempt + 1) s

theorem send_attempts_ok_first (room : String) (o : Nat → SendAttempt)
    (attempt r : Nat) (s : MiddlewareService) (h : o attempt = SendAttempt.ok) :
    send_attempts room o attempt (r + 1) s =
      { s with api_error := s.api_error.set room false } := by
  simp only [send_attempts]
  rw [h]

theorem send_fail_eq (s : MiddlewareService) (room : String) (a : Bool)
    (o : Nat → SendAttempt) (hf : ∀ i, o i = SendAttempt.fail) :
    send_hvac_command s room a o =
      { s with api_error := s.api_error.set room true } :=
  send_attempts_fail_eq room o hf API_Rerty_Limit 0 s

theorem send_ok_first (s : MiddlewareService) (room : String) (a : Bool)
    (o : Nat → SendAttempt) (h : o 0 = SendAttempt.ok) :
    send_hvac_command s room a o =
      { s with api_error := s.api_error.set room false } := by
  have hl : API_Rerty_Limit = 2 + 1 := rfl
  rw [send_hvac_command, hl]
  exact send_attempts_ok_first room o 0 2 s h

theorem send_attempts_effects (room : String) (o : Nat → SendAttempt) :
    ∀ (r attempt : Nat) (s : MiddlewareService),
      (send_attempts room o attempt r s).temperatures = s.temperatures ∧
      (send_attempts room o attempt r s).hvac_active = s.hvac_active ∧
      (send_attempts room o attempt r s).invalid_counts = s.invalid_counts ∧
      (send_attempts room o attempt r s).sensor_error = s.sensor_error ∧
      ∀ e, e ≠ room →
        (send_attempts room o attempt r s).api_error.get? e = s.api_error.get? e := by
  intro r
  induction r with
  | zero =>
    intro attempt s
    exact ⟨rfl, rfl, rfl, rfl, fun e he => PyDict.get?_set_ne _ _ _ _ he⟩
  | succ r ih =>
    intro attempt s
    cases h : o attempt with
    | ok =>
      have he : send_attempts room o attempt (r + 1) s =
          { s with api_error := s.api_error.set room false } := by
        simp only [send_attempts]
        rw [h]
      rw [he]
      exact ⟨rfl, rfl, rfl, rfl, fun e hne => PyDict.get?_set_ne _ _ _ _ hne⟩
    | fail =>
      have he : send_attempts room o attempt (r + 1) s =
          send_attempts room o (attempt + 1) r s := by
        simp only [send_attempts]
        rw [h]
      rw [he]
      exact ih (attempt + 1) s

theorem poll_attempts_fail_eq (room : String) (o : Nat → PollAttempt)
    (hf : ∀ i, o i = PollAttempt.fail) :
    ∀ (r attempt : Nat) (s : MiddlewareService),
      poll_attempts room o attempt r s =
        { s with api_error := s.api_error.set room true } := by
  intro r
  induction r with
  | zero => intro attempt s; rfl
  | succ r ih =>
    intro attempt s
    simp only [poll_attempts]
    rw [hf attempt]
    exact ih (attempt + 1) s

theorem poll_attempts_ok_first (room : String) (o : Nat → PollAttempt)
    (attempt r : Nat) (s : MiddlewareService) (st : Option String)
    (h : o attempt = PollAttempt.ok st) :
    poll_attempts room o attempt (r + 1) s =
      { s with
        hvac_active := s.hvac_active.set room (some (decide (st = some "active")))
        api_error := s.api_error.set room false } := by
  simp only [poll_attempts]
  rw [h]

theorem poll_fail_eq (s : MiddlewareService) (room : String)
    (o : Nat → PollAttempt) (hf : ∀ i, o i = PollAttempt.fail) :
    poll_hvac_status s room o =
      { s with api_error := s.api_error.set room true } :=
  poll_attempts_fail_eq room o hf API_Rerty_Limit 0 s

theorem poll_ok_first (s : MiddlewareService) (room : String)
    (o : Nat → PollAttempt) (st : Option String) (h : o 0 = PollAttempt.ok st) :
    poll_hvac_status s room o =
      { s with
        hvac_active := s.hvac_active.set room (some (decide (st = some "active")))
        api_error := s.api_error.set room false } := by
  have hl : API_Rerty_Limit = 2 + 1 := rfl
  rw [poll_hvac_status, hl]
  exact poll_attempts_ok_first room o 0 2 s st h

/-! ### Ingestion lemmas -/

theorem on_message_valid_eq (s : MiddlewareService) (topic room : String)
    (temp : ℚ) (hr : (pySplit topic '/')[1]? = some room)
    (hv : 0 ≤ temp ∧ temp ≤ 50) :
    on_message s topic (.parsed temp) =
      { s with
        temperatures := s.temperatures.set room temp
        invalid_counts := s.invalid_counts.set room 0
        sensor_error := s.sensor_error.set room false } := by
  simp only [on_message, hr]
  rw [if_pos hv]

theorem on_message_invalid_eq (s : MiddlewareService) (topic room : String)
    (hr : (pySplit topic '/')[1]? = some room) :
    on_message s topic Payload.unparsable = handle_invalid s (some room) := by
  simp only [on_message, hr]

theorem on_message_oor_eq (s : MiddlewareService) (topic room : String)
    (temp : ℚ) (hr : (pySplit topic '/')[1]? = some room)
    (hv : ¬ (0 ≤ temp ∧ temp ≤ 50)) :
    on_message s topic (.parsed temp) = handle_invalid s (some room) := by
  simp only [on_message, hr]
  rw [if_neg hv]

theorem handle_invalid_unknown (s : MiddlewareService) (room : String)
    (h : room ∉ s.invalid_counts.keys) :
    handle_invalid s (some room) = s := by
  simp [handle_invalid, h]

theorem handle_invalid_known (s : MiddlewareService) (room : String) (c : Nat)
    (h : s.invalid_counts.get? room = some c) :
    handle_invalid s (some room) =
      if c + 1 ≥ Invalid_Data_Limit then
        { s with
          invalid_counts := s.invalid_counts.set room (c + 1)
          sensor_error := s.sensor_error.set room true }
      else
        { s with invalid_counts := s.invalid_counts.set room (c + 1) } := by
  obtain ⟨hmem, hval⟩ := PyDict.get?_eq_some_iff.mp h
  simp only [handle_invalid, if_pos hmem, hval]

/-! ### Control-loop body: case lemmas -/

theorem cycle_room_none_sensor (s : MiddlewareService) (room : String) (temp : ℚ)
    (oracle : Bool → Nat → SendAttempt) (h : s.sensor_error.get? room = none) :
    cycle_room s room temp oracle = none := by
  simp only [cycle_room]
  rw [h]

theorem cycle_room_skip_sensor (s : MiddlewareService) (room : String) (temp : ℚ)
    (oracle : Bool → Nat → SendAttempt) (h : s.sensor_error.get? room = some true) :
    cycle_room s room temp oracle = some (s, []) := by
  simp only [cycle_room]
  rw [h]

theorem cycle_room_none_api (s : MiddlewareService) (room : String) (temp : ℚ)
    (oracle : Bool → Nat → SendAttempt) (h1 : s.sensor_error.get? room = some false)
    (h2 : s.api_error.get? room = none) :
    cycle_room s room temp oracle = none := by
  simp only [cycle_room]
  rw [h1, h2]

theorem cycle_room_skip_api (s : MiddlewareService) (room : String) (temp : ℚ)
    (oracle : Bool → Nat → SendAttempt) (h1 : s.sensor_error.get? room = some false)
    (h2 : s.api_error.get? room = some true) :
    cycle_room s room temp oracle = some (s, []) := by
  simp only [cycle_room]
  rw [h1, h2]

theorem cycle_room_none_hvac (s : MiddlewareService) (room : String) (temp : ℚ)
    (oracle : Bool → Nat → SendAttempt) (h1 : s.sensor_error.get? room = some false)
    (h2 : s.api_error.get? room = some false) (h3 : s.hvac_active.get? room = none) :
    cycle_room s room temp oracle = none := by
  simp only [cycle_room]
  rw [h1, h2, h3]

theorem cycle_room_eq_branch (s : MiddlewareService) (room : String) (temp : ℚ)
    (oracle : Bool → Nat → SendAttempt) (av : Option Bool)
    (h1 : s.sensor_error.get? room = some false)
    (h2 : s.api_error.get? room = some false)
    (h3 : s.hvac_active.get? room = some av) :
    cycle_room s room temp oracle =
      (if temp > 30 ∧ av ≠ some true then
        some ({ send_hvac_command s room true (oracle true) with
          hvac_active :=
            (send_hvac_command s room true (oracle true)).hvac_active.set room
              (some true) }, [(room, true)])
      else if ¬ temp > 30 ∧ av ≠ some false then
        some ({ send_hvac_command s room false (oracle false) with
          hvac_active :=
            (send_hvac_command s room false (oracle false)).hvac_active.set room
              (some false) }, [(room, false)])
      else some (s, [])) := by
  simp only [cycle_room]
  rw [h1, h2, h3]

/-! ### Frame and skip propagation through a cycle -/

theorem entityView_hvac {s1 s2 : MiddlewareService} {e : String}
    (h : entityView s1 e = entityView s2 e) :
    s1.hvac_active.get? e = s2.hvac_active.get? e :=
  congrArg (fun t => t.2.1) h

theorem entityView_api {s1 s2 : MiddlewareService} {e : String}
    (h : entityView s1 e = entityView s2 e) :
    s1.api_error.get? e = s2.api_error.get? e :=
  congrArg (fun t => t.2.2.2.2) h

theorem entitySkips_congr {s1 s2 : MiddlewareService} {e : String} {temp : ℚ}
    (h : entityView s1 e = entityView s2 e) :
    entitySkips s2 e temp → entitySkips s1 e temp := by
  unfold entityView at h
  simp only [Prod.mk.injEq] at h
  obtain ⟨h1, h2, h3, h4, h5⟩ := h
  unfold entitySkips
  rw [h2, h4, h5]
  exact id

theorem cycle_room_frame (s : MiddlewareService) (room : String) (temp : ℚ)
    (oracle : Bool → Nat → SendAttempt) (e : String) (he : e ≠ room)
    (s1 : MiddlewareService) (calls : List (String × Bool))
    (h : cycle_room s room temp oracle = some (s1, calls)) :
    entityView s1 e = entityView s e ∧ ∀ c ∈ calls, c.1 = room := by
  cases hs : s.sensor_error.get? room with
  | none =>
    rw [cycle_room_none_sensor s room temp oracle hs] at h
    exact absurd h (by simp)
  | some bs =>
    cases bs with
    | true =>
      rw [cycle_room_skip_sensor s room temp oracle hs] at h
      obtain ⟨rfl, rfl⟩ : s1 = s ∧ calls = [] := by
        simpa [And.comm] using h.symm
      exact ⟨rfl, by simp⟩
    | false =>
      cases ha : s.api_error.get? room with
      | none =>
        rw [cycle_room_none_api s room temp oracle hs ha] at h
        exact absurd h (by simp)
      | some ba =>
        cases ba with
        | true =>
          rw [cycle_room_skip_api s room temp oracle hs ha] at h
          obtain ⟨rfl, rfl⟩ : s1 = s ∧ calls = [] := by
            simpa [And.comm] using h.symm
          exact ⟨rfl, by simp⟩
        | false =>
          cases hv : s.hvac_active.get? room with
          | none =>
            rw [cycle_room_none_hvac s room temp oracle hs ha hv] at h
            exact absurd h (by simp)
          | some av =>
            rw [cycle_room_eq_branch s room temp oracle av hs ha hv] at h
            have heff1 := send_attempts_effects room (oracle true) API_Rerty_Limit 0 s
            have heff2 := send_attempts_effects room (oracle false) API_Rerty_Limit 0 s
            split at h
            · obtain ⟨rfl, rfl⟩ : _ = s1 ∧ _ = calls := by
                simpa using h
              refine ⟨?_, by simp⟩
              obtain ⟨e1, e2, e3, e4, e5⟩ := heff1
              simp only [entityView, send_hvac_command] at *
              rw [PyDict.get?_set_ne _ _ _ _ he, e1, e2, e3, e4, e5 e he]
            · split at h
              · obtain ⟨rfl, rfl⟩ : _ = s1 ∧ _ = calls := by
                  simpa using h
                refine ⟨?_, by simp⟩
                obtain ⟨e1, e2, e3, e4, e5⟩ := heff2
                simp only [entityView, send_hvac_command] at *
                rw [PyDict.get?_set_ne _ _ _ _ he, e1, e2, e3, e4, e5 e he]
              · obtain ⟨rfl, rfl⟩ : s1 = s ∧ calls = [] := by
                  simpa [And.comm] using h.symm
                exact ⟨rfl, by simp⟩

theorem cycle_room_of_skips (s : MiddlewareService) (e : String) (temp : ℚ)
    (oracle : Bool → Nat → SendAttempt) (h : entitySkips s e temp) :
    cycle_room s e temp oracle = some (s, []) ∨
    cycle_room s e temp oracle = none := by
  cases hs : s.sensor_error.get? e with
  | none => exact Or.inr (cycle_room_none_sensor s e temp oracle hs)
  | some bs =>
    cases bs with
    | true => exact Or.inl (cycle_room_skip_sensor s e temp oracle hs)
    | false =>
      cases ha : s.api_error.get? e with
      | none => exact Or.inr (cycle_room_none_api s e temp oracle hs ha)
      | some ba =>
        cases ba with
        | true => exact Or.inl (cycle_room_skip_api s e temp oracle hs ha)
        | false =>
          cases hv : s.hvac_active.get? e with
          | none => exact Or.inr (cycle_room_none_hvac s e temp oracle hs ha hv)
          | some av =>
            have hav : av = some (decide (temp > 30)) := by
              rcases h with h | h | h | h
              · exact absurd hs h
              · exact absurd ha h
              · exact absurd hv (by simp [h])
              · rw [hv] at h
                exact (Option.some.injEq _ _).mp h
            left
            rw [cycle_room_eq_branch s e temp oracle av hs ha hv]
            by_cases ht : temp > 30
            · rw [if_neg (by simp [hav, ht]), if_neg (by simp [ht])]
            · rw [if_neg (by simp [ht]), if_neg (by simp [hav, ht])]

theorem run_cycle_aux_skips (oracle : String → Bool → Nat → SendAttempt)
    (tempOf : String → ℚ) (e : String) :
    ∀ (rooms : List String) (s : MiddlewareService) (log : List (String × Bool)),
      entitySkips s e (tempOf e) →
      entityView (run_cycle_aux oracle tempOf rooms s log).1 e = entityView s e ∧
      ∀ c ∈ (run_cycle_aux oracle tempOf rooms s log).2, c ∈ log ∨ c.1 ≠ e := by
  intro rooms
  induction rooms with
  | nil =>
    intro s log hskip
    exact ⟨rfl, fun c hc => Or.inl hc⟩
  | cons room rest ih =>
    intro s log hskip
    by_cases hre : room = e
    · subst hre
      rcases cycle_room_of_skips s room (tempOf room) (oracle room) hskip with hcr | hcr
      · simp only [run_cycle_aux, hcr]
        rw [List.append_nil]
        exact ih s log hskip
      · simp only [run_cycle_aux, hcr]
        exact ⟨by trivial, fun c hc => Or.inl hc⟩
    · cases hcr : cycle_room s room (tempOf room) (oracle room) with
      | none =>
        simp only [run_cycle_aux, hcr]
        exact ⟨by trivial, fun c hc => Or.inl hc⟩
      | some p =>
        obtain ⟨s1, calls⟩ := p
        have hf := cycle_room_frame s room (tempOf room) (oracle room) e
          (fun hh => hre hh.symm) s1 calls hcr
        have hskip1 : entitySkips s1 e (tempOf e) := entitySkips_congr hf.1 hskip
        simp only [run_cycle_aux, hcr]
        obtain ⟨hview, hcalls⟩ := ih s1 (log ++ calls) hskip1
        refine ⟨hview.trans hf.1, fun c hc => ?_⟩
        rcases hcalls c hc with hmem | hne
        · rcases List.mem_append.mp hmem with hmem1 | hmem2
          · exact Or.inl hmem1
          · exact Or.inr (fun hh => hre ((hf.2 c hmem2).symm.trans hh))
        · exact Or.inr hne

theorem run_cycle_skips (s : MiddlewareService) (e : String)
    (oracle : String → Bool → Nat → SendAttempt)
    (h : entitySkips s e (s.temperatures.val e)) :
    entityView (run_cycle s oracle).1 e = entityView s e ∧
    ∀ c ∈ (run_cycle s oracle).2, c.1 ≠ e := by
  obtain ⟨hv, hc⟩ :=
    run_cycle_aux_skips oracle s.temperatures.val e s.temperatures.keys s [] h
  exact ⟨hv, fun c hcc => (hc c hcc).resolve_left (by simp)⟩

/-! ### Counting invalid readings -/

theorem on_message_invalid_step (s : MiddlewareService) (topic e : String)
    (c : Nat) (hr : (pySplit topic '/')[1]? = some e)
    (hc : s.invalid_counts.get? e = some c) (hlt : c + 1 < Invalid_Data_Limit) :
    on_message s topic Payload.unparsable =
      { s with invalid_counts := s.invalid_counts.set e (c + 1) } := by
  rw [on_message_invalid_eq s topic e hr, handle_invalid_known s e c hc,
    if_neg (by omega)]

theorem on_message_invalid_limit (s : MiddlewareService) (topic e : String)
    (c : Nat) (hr : (pySplit topic '/')[1]? = some e)
    (hc : s.invalid_counts.get? e = some c) (hge : c + 1 ≥ Invalid_Data_Limit) :
    on_message s topic Payload.unparsable =
      { s with
        invalid_counts := s.invalid_counts.set e (c + 1)
        sensor_error := s.sensor_error.set e true } := by
  rw [on_message_invalid_eq s topic e hr, handle_invalid_known s e c hc,
    if_pos hge]

/-! ### The claims -/

/-- C1, counterexample: with room1 at 35 °C, `commandedActive = false` and
every send attempt failing, one control cycle sets the backend fault for
room1 and nevertheless overwrites `hvac_active["room1"]` from `False` to
`True` — the commanded state is not left unchanged when the call fails, so
the next cycle does not retry via the true/false comparison. -/
theorem C1_counterexample :
    (run_cycle s_room1_hot_inactive failOracle).1.api_error.get? "room1" =
      some true ∧
    s_room1_hot_inactive.hvac_active.get? "room1" = some (some false) ∧
    (run_cycle s_room1_hot_inactive failOracle).1.hvac_active.get? "room1" =
      some (some true) := by decide

/-- C1, amended: when `sendCommand` for a fault-free entity exhausts its
retries during a control-loop cycle, the loop body still sets
`commandedActive` to the commanded value, `backendFault` becomes true, and
every later loop body for that entity skips it (no automatic retry). -/
theorem C1_amended (s : MiddlewareService) (e : String) (temp : ℚ)
    (oracle : Bool → Nat → SendAttempt) (av : Option Bool)
    (hs : s.sensor_error.get? e = some false)
    (ha : s.api_error.get? e = some false)
    (hv : s.hvac_active.get? e = some av)
    (hmis : av ≠ some (decide (temp > 30)))
    (hfail : ∀ b i, oracle b i = SendAttempt.fail) :
    (cycle_room s e temp oracle).map Prod.snd = some [(e, decide (temp > 30))] ∧
    (cycle_room s e temp oracle).map (fun p => p.1.hvac_active.get? e) =
      some (some (some (decide (temp > 30)))) ∧
    (cycle_room s e temp oracle).map (fun p => p.1.api_error.get? e) =
      some (some true) ∧
    ∀ (t2 : ℚ) (o2 : Bool → Nat → SendAttempt),
      (cycle_room s e temp oracle).bind (fun p => cycle_room p.1 e t2 o2) =
        (cycle_room s e temp oracle).map (fun p => (p.1, [])) := by
  rw [cycle_room_eq_branch s e temp oracle av hs ha hv]
  by_cases ht : temp > 30
  · have hd : decide (temp > 30) = true := by simp [ht]
    have hne : av ≠ some true := by rw [hd] at hmis; exact hmis
    rw [if_pos ⟨ht, hne⟩, send_fail_eq s e true (oracle true) (hfail true)]
    refine ⟨by simp [hd], ?_, ?_, ?_⟩
    · rw [hd]
      exact congrArg some (PyDict.get?_set_self _ _ _)
    · exact congrArg some (PyDict.get?_set_self _ _ _)
    · intro t2 o2
      exact cycle_room_skip_api _ e t2 o2 hs (PyDict.get?_set_self _ _ _)
  · have hd : decide (temp > 30) = false := by simp [ht]
    have hne : av ≠ some false := by rw [hd] at hmis; exact hmis
    rw [if_neg (fun hh => ht hh.1), if_pos ⟨ht, hne⟩,
      send_fail_eq s e false (oracle false) (hfail false)]
    refine ⟨by simp [hd], ?_, ?_, ?_⟩
    · rw [hd]
      exact congrArg some (PyDict.get?_set_self _ _ _)
    · exact congrArg some (PyDict.get?_set_self _ _ _)
    · intro t2 o2
      exact cycle_room_skip_api _ e t2 o2 hs (PyDict.get?_set_self _ _ _)

/-- C1, witness for the amended theorem at the 35 °C scenario. -/
theorem C1_witness :
    (cycle_room s_room1_hot_inactive "room1" 35 (failOracle "room1")).map
      Prod.snd = some [("room1", decide ((35 : ℚ) > 30))] ∧
    (cycle_room s_room1_hot_inactive "room1" 35 (failOracle "room1")).map
      (fun p => p.1.hvac_active.get? "room1") =
      some (some (some (decide ((35 : ℚ) > 30)))) ∧
    (cycle_room s_room1_hot_inactive "room1" 35 (failOracle "room1")).map
      (fun p => p.1.api_error.get? "room1") = some (some true) ∧
    (cycle_room s_room1_hot_inactive "room1" 35 (failOracle "room1")).bind
      (fun p => cycle_room p.1 "room1" 35 (failOracle "room1")) =
      (cycle_room s_room1_hot_inactive "room1" 35 (failOracle "room1")).map
        (fun p => (p.1, [])) := by
  obtain ⟨h1, h2, h3, h4⟩ := C1_amended s_room1_hot_inactive "room1" 35
    (failOracle "room1") (some false) (by decide) (by decide) (by decide)
    (by decide) (fun b i => rfl)
  exact ⟨h1, h2, h3, h4 35 (failOracle "room1")⟩

/-- C2, counterexample: a well-formed in-range reading for `room6`, an entity
that is not configured, creates a `room6` entry in the temperatures map — the
set of tracked entities is not fixed at startup. -/
theorem C2_counterexample :
    "room6" ∉ ROOMS ∧
    "room6" ∉ MiddlewareService.init.temperatures.keys ∧
    "room6" ∈ (on_message MiddlewareService.init "building/room6/temperature"
      (Payload.parsed 25)).temperatures.keys := by decide

/-- C2, amended: the valid-reading path of `on_message` does not check that
the entity is known — a well-formed in-range reading for entity `r` creates
entries for `r` in the temperatures, invalid-count and sensor-error maps
(leaving the hvac-active and api-error maps untouched); only the
invalid-reading path requires the entity to be known, so an invalid reading
for an unknown entity leaves the state unchanged. -/
theorem C2_amended (s : MiddlewareService) (topic r : String) (v : ℚ)
    (hr : (pySplit topic '/')[1]? = some r)
    (hv : 0 ≤ v ∧ v ≤ 50) :
    (r ∈ (on_message s topic (Payload.parsed v)).temperatures.keys ∧
     r ∈ (on_message s topic (Payload.parsed v)).invalid_counts.keys ∧
     r ∈ (on_message s topic (Payload.parsed v)).sensor_error.keys ∧
     (on_message s topic (Payload.parsed v)).hvac_active = s.hvac_active ∧
     (on_message s topic (Payload.parsed v)).api_error = s.api_error) ∧
    (r ∉ s.invalid_counts.keys →
      on_message s topic Payload.unparsable = s) := by
  constructor
  · rw [on_message_valid_eq s topic r v hr hv]
    refine ⟨?_, ?_, ?_, rfl, rfl⟩ <;> simp [PyDict.mem_keys_set]
  · intro hnk
    rw [on_message_invalid_eq s topic r hr]
    exact handle_invalid_unknown s r hnk

/-- C2, witness for the amended theorem with the unconfigured `room6`. -/
theorem C2_witness :
    "room6" ∈ (on_message MiddlewareService.init "building/room6/temperature"
      (Payload.parsed 25)).temperatures.keys ∧
    "room6" ∈ (on_message MiddlewareService.init "building/room6/temperature"
      (Payload.parsed 25)).invalid_counts.keys ∧
    "room6" ∈ (on_message MiddlewareService.init "building/room6/temperature"
      (Payload.parsed 25)).sensor_error.keys ∧
    (on_message MiddlewareService.init "building/room6/temperature"
      (Payload.parsed 25)).hvac_active = MiddlewareService.init.hvac_active ∧
    (on_message MiddlewareService.init "building/room6/temperature"
      (Payload.parsed 25)).api_error = MiddlewareService.init.api_error ∧
    on_message MiddlewareService.init "building/room6/temperature"
      Payload.unparsable = MiddlewareService.init := by
  obtain ⟨⟨h1, h2, h3, h4, h5⟩, h6⟩ := C2_amended MiddlewareService.init
    "building/room6/temperature" "room6" 25 (by decide) (by decide)
  exact ⟨h1, h2, h3, h4, h5, h6 (by decide)⟩

/-- C3: for a known entity whose invalid counter stands at 0 (i.e. since its
last valid reading), three consecutive invalid readings
(`Invalid_Data_Limit = 3`) set `sensorFault = true`, and the very next valid
reading clears the fault and resets the invalid counter to 0. -/
theorem C3_sensor_fault_cycle (s : MiddlewareService) (topic e : String)
    (v : ℚ) (hr : (pySplit topic '/')[1]? = some e)
    (h0 : s.invalid_counts.get? e = some 0)
    (hv : 0 ≤ v ∧ v ≤ 50) :
    (on_message (on_message (on_message s topic Payload.unparsable) topic
      Payload.unparsable) topic Payload.unparsable).sensor_error.get? e =
      some true ∧
    (on_message (on_message (on_message (on_message s topic Payload.unparsable)
      topic Payload.unparsable) topic Payload.unparsable) topic
      (Payload.parsed v)).sensor_error.get? e = some false ∧
    (on_message (on_message (on_message (on_message s topic Payload.unparsable)
      topic Payload.unparsable) topic Payload.unparsable) topic
      (Payload.parsed v)).invalid_counts.get? e = some 0 := by
  have e1 := on_message_invalid_step s topic e 0 hr h0
    (by norm_num [Invalid_Data_Limit])
  have h1 : (on_message s topic Payload.unparsable).invalid_counts.get? e =
      some 1 := by
    rw [e1]
    exact PyDict.get?_set_self _ _ _
  have e2 := on_message_invalid_step _ topic e 1 hr h1
    (by norm_num [Invalid_Data_Limit])
  have h2 : (on_message (on_message s topic Payload.unparsable) topic
      Payload.unparsable).invalid_counts.get? e = some 2 := by
    rw [e2]
    exact PyDict.get?_set_self _ _ _
  have e3 := on_message_invalid_limit _ topic e 2 hr h2
    (by norm_num [Invalid_Data_Limit])
  have hsen3 : (on_message (on_message (on_message s topic Payload.unparsable)
      topic Payload.unparsable) topic Payload.unparsable).sensor_error.get? e =
      some true := by
    rw [e3]
    exact PyDict.get?_set_self _ _ _
  have e4 := on_message_valid_eq (on_message (on_message (on_message s topic
    Payload.unparsable) topic Payload.unparsable) topic Payload.unparsable)
    topic e v hr hv
  refine ⟨hsen3, ?_, ?_⟩
  · rw [e4]
    exact PyDict.get?_set_self _ _ _
  · rw [e4]
    exact PyDict.get?_set_self _ _ _

/-- C3, witness at room1 with an in-range reading of 20 °C. -/
theorem C3_witness :
    (on_message (on_message (on_message MiddlewareService.init
      "building/room1/temperature" Payload.unparsable)
      "building/room1/temperature" Payload.unparsable)
      "building/room1/temperature" Payload.unparsable).sensor_error.get?
      "room1" = some true ∧
    (on_message (on_message (on_message (on_message MiddlewareService.init
      "building/room1/temperature" Payload.unparsable)
      "building/room1/temperature" Payload.unparsable)
      "building/room1/temperature" Payload.unparsable)
      "building/room1/temperature" (Payload.parsed 20)).sensor_error.get?
      "room1" = some false ∧
    (on_message (on_message (on_message (on_message MiddlewareService.init
      "building/room1/temperature" Payload.unparsable)
      "building/room1/temperature" Payload.unparsable)
      "building/room1/temperature" Payload.unparsable)
      "building/room1/temperature" (Payload.parsed 20)).invalid_counts.get?
      "room1" = some 0 :=
  C3_sensor_fault_cycle MiddlewareService.init "building/room1/temperature"
    "room1" 20 (by decide) (by decide) (by decide)

/-- C4: exhausting the retry budget of `pollStatus` or `sendCommand` sets
`backendFault = true` for that entity while every state field of any other
entity is unchanged; a poll that exhausts its retries leaves `commandedActive`
at its prior value; and a subsequent successful poll or command for the
entity clears the fault again. -/
theorem C4_retry_exhaustion (s : MiddlewareService) (e e2 : String)
    (a b : Bool) (st : Option String)
    (pf : Nat → PollAttempt) (sf : Nat → SendAttempt)
    (pg : Nat → PollAttempt) (sg : Nat → SendAttempt)
    (hpf : ∀ i, pf i = PollAttempt.fail)
    (hsf : ∀ i, sf i = SendAttempt.fail)
    (hpg : pg 0 = PollAttempt.ok st)
    (hsg : sg 0 = SendAttempt.ok)
    (hne : e2 ≠ e) :
    (poll_hvac_status s e pf).api_error.get? e = some true ∧
    (poll_hvac_status s e pf).hvac_active = s.hvac_active ∧
    entityView (poll_hvac_status s e pf) e2 = entityView s e2 ∧
    (send_hvac_command s e a sf).api_error.get? e = some true ∧
    entityView (send_hvac_command s e a sf) e2 = entityView s e2 ∧
    (poll_hvac_status (poll_hvac_status s e pf) e pg).api_error.get? e =
      some false ∧
    (send_hvac_command (send_hvac_command s e b sf) e a sg).api_error.get? e =
      some false := by
  have hp := poll_fail_eq s e pf hpf
  have hsnd := send_fail_eq s e a sf hsf
  refine ⟨?_, ?_, ?_, ?_, ?_, ?_, ?_⟩
  · rw [hp]
    exact PyDict.get?_set_self _ _ _
  · rw [hp]
  · rw [hp]
    unfold entityView
    rw [PyDict.get?_set_ne _ _ _ _ hne]
  · rw [hsnd]
    exact PyDict.get?_set_self _ _ _
  · rw [hsnd]
    unfold entityView
    rw [PyDict.get?_set_ne _ _ _ _ hne]
  · rw [poll_ok_first _ e pg st hpg]
    exact PyDict.get?_set_self _ _ _
  · rw [send_ok_first _ e a sg hsg]
    exact PyDict.get?_set_self _ _ _

/-- C4, witness: room1 faults and recovers; room2 is untouched. -/
theorem C4_witness :
    (poll_hvac_status MiddlewareService.init "room1"
      (fun _ => PollAttempt.fail)).api_error.get? "room1" = some true ∧
    (poll_hvac_status MiddlewareService.init "room1"
      (fun _ => PollAttempt.fail)).hvac_active =
      MiddlewareService.init.hvac_active ∧
    entityView (poll_hvac_status MiddlewareService.init "room1"
      (fun _ => PollAttempt.fail)) "room2" =
      entityView MiddlewareService.init "room2" ∧
    (send_hvac_command MiddlewareService.init "room1" true
      (fun _ => SendAttempt.fail)).api_error.get? "room1" = some true ∧
    entityView (send_hvac_command MiddlewareService.init "room1" true
      (fun _ => SendAttempt.fail)) "room2" =
      entityView MiddlewareService.init "room2" ∧
    (poll_hvac_status (poll_hvac_status MiddlewareService.init "room1"
      (fun _ => PollAttempt.fail)) "room1"
      (fun _ => PollAttempt.ok (some "active"))).api_error.get? "room1" =
      some false ∧
    (send_hvac_command (send_hvac_command MiddlewareService.init "room1" false
      (fun _ => SendAttempt.fail)) "room1" true
      (fun _ => SendAttempt.ok)).api_error.get? "room1" = some false :=
  C4_retry_exhaustion MiddlewareService.init "room1" "room2" true false
    (some "active") (fun _ => PollAttempt.fail) (fun _ => SendAttempt.fail)
    (fun _ => PollAttempt.ok (some "active")) (fun _ => SendAttempt.ok)
    (fun i => rfl) (fun i => rfl) rfl rfl (by decide)

/-- C5: an entity whose `sensorFault` or `backendFault` flag is set is
skipped by the control loop — a full cycle issues no backend call for it and
leaves its `commandedActive` unchanged, whatever its temperature. -/
theorem C5_fault_skip (s : MiddlewareService) (e : String)
    (oracle : String → Bool → Nat → SendAttempt)
    (h : s.sensor_error.get? e = some true ∨ s.api_error.get? e = some true) :
    (run_cycle s oracle).1.hvac_active.get? e = s.hvac_active.get? e ∧
    ∀ c ∈ (run_cycle s oracle).2, c.1 ≠ e := by
  have hsk : entitySkips s e (s.temperatures.val e) := by
    rcases h with h | h
    · exact Or.inl (by simp [h])
    · exact Or.inr (Or.inl (by simp [h]))
  obtain ⟨hv, hc⟩ := run_cycle_skips s e oracle hsk
  exact ⟨entityView_hvac hv, hc⟩

/-- C5, witness: room1 at 45 °C with a sensor fault keeps its commanded
state across a cycle. -/
theorem C5_witness :
    (run_cycle s_room1_sensor_fault failOracle).1.hvac_active.get? "room1" =
      s_room1_sensor_fault.hvac_active.get? "room1" :=
  (C5_fault_skip s_room1_sensor_fault "room1" failOracle
    (Or.inl (by decide))).1

/-- C6: control-loop idempotence — a fault-free entity whose
`commandedActive` already matches the desired state derived from its stored
temperature gets no backend call in a cycle, and all five of its state
fields are unchanged. -/
theorem C6_steady_state (s : MiddlewareService) (e : String) (t : ℚ)
    (oracle : String → Bool → Nat → SendAttempt)
    (ht : s.temperatures.get? e = some t)
    (hs : s.sensor_error.get? e = some false)
    (ha : s.api_error.get? e = some false)
    (hm : s.hvac_active.get? e = some (some (decide (t > 30)))) :
    (∀ c ∈ (run_cycle s oracle).2, c.1 ≠ e) ∧
    entityView (run_cycle s oracle).1 e = entityView s e := by
  have hval : s.temperatures.val e = t := (PyDict.get?_eq_some_iff.mp ht).2
  have hsk : entitySkips s e (s.temperatures.val e) := by
    rw [hval]
    exact Or.inr (Or.inr (Or.inr hm))
  obtain ⟨hv, hc⟩ := run_cycle_skips s e oracle hsk
  exact ⟨hc, hv⟩

/-- C6, witness: room1 at 35 °C with HVAC already commanded on is left
entirely unchanged by a cycle. -/
theorem C6_witness :
    entityView (run_cycle s_room1_hot_active failOracle).1 "room1" =
      entityView s_room1_hot_active "room1" :=
  (C6_steady_state s_room1_hot_active "room1" 35 failOracle (by decide)
    (by decide) (by decide) (by decide)).2

/-- C7: for a known entity, an out-of-range reading is handled exactly like
a parse failure; either invalid reading leaves the temperatures map
unchanged and increments the entity's invalid counter by exactly 1. -/
theorem C7_invalid_equiv (s : MiddlewareService) (topic e : String) (v : ℚ)
    (c : Nat) (hr : (pySplit topic '/')[1]? = some e)
    (hc : s.invalid_counts.get? e = some c)
    (hv : v < 0 ∨ 50 < v) :
    on_message s topic (Payload.parsed v) =
      on_message s topic Payload.unparsable ∧
    (on_message s topic Payload.unparsable).temperatures = s.temperatures ∧
    (on_message s topic Payload.unparsable).invalid_counts.get? e =
      some (c + 1) := by
  have hnv : ¬ (0 ≤ v ∧ v ≤ 50) := by
    rcases hv with h | h
    · intro hh
      exact absurd hh.1 (by linarith)
    · intro hh
      exact absurd hh.2 (by linarith)
  refine ⟨?_, ?_, ?_⟩
  · rw [on_message_oor_eq s topic e v hr hnv, on_message_invalid_eq s topic e hr]
  · rw [on_message_invalid_eq s topic e hr, handle_invalid_known s e c hc]
    split <;> rfl
  · rw [on_message_invalid_eq s topic e hr, handle_invalid_known s e c hc]
    split <;> exact PyDict.get?_set_self _ _ _

/-- C7, witness: the reading `60` for room2 (prior value 22 °C) acts exactly
like a parse failure and bumps the counter from 0 to 1. -/
theorem C7_witness :
    on_message s_room2_temp22 "building/room2/temperature"
      (Payload.parsed 60) =
      on_message s_room2_temp22 "building/room2/temperature"
        Payload.unparsable ∧
    (on_message s_room2_temp22 "building/room2/temperature"
      Payload.unparsable).temperatures = s_room2_temp22.temperatures ∧
    (on_message s_room2_temp22 "building/room2/temperature"
      Payload.unparsable).invalid_counts.get? "room2" = some (0 + 1) :=
  C7_invalid_equiv s_room2_temp22 "building/room2/temperature" "room2" 60 0
    (by decide) (by decide) (Or.inr (by decide))

/-- C8: per-entity isolation of ingestion — a valid reading addressed to
entity `x` leaves every state field of any other entity `y` unchanged. -/
theorem C8_valid_isolated (s : MiddlewareService) (topic x y : String) (v : ℚ)
    (hr : (pySplit topic '/')[1]? = some x)
    (hv : 0 ≤ v ∧ v ≤ 50) (hxy : y ≠ x) :
    entityView (on_message s topic (Payload.parsed v)) y = entityView s y := by
  rw [on_message_valid_eq s topic x v hr hv]
  unfold entityView
  rw [PyDict.get?_set_ne _ _ _ _ hxy, PyDict.get?_set_ne _ _ _ _ hxy,
    PyDict.get?_set_ne _ _ _ _ hxy]

/-- C8, witness: a 31.5 °C reading for room1 leaves room2 untouched. -/
theorem C8_witness :
    entityView (on_message MiddlewareService.init
      "building/room1/temperature" (Payload.parsed 31.5)) "room2" =
      entityView MiddlewareService.init "room2" :=
  C8_valid_isolated MiddlewareService.init "building/room1/temperature"
    "room1" "room2" 31.5 (by decide) (by norm_num) (by decide)

/-- C9: at construction every configured entity's temperature is 0.0 (not an
unset sentinel); hence a fault-free entity that has received no reading
(stored temperature 0) whose `commandedActive` is not `False` gets
`shouldActivate = false` in the loop body, which issues exactly one
deactivate command for it and records `commandedActive = False`. -/
theorem C9_init_zero_deactivates :
    (∀ r ∈ ROOMS, MiddlewareService.init.temperatures.get? r = some 0) ∧
    ∀ (s : MiddlewareService) (e : String) (av : Option Bool)
      (oracle : Bool → Nat → SendAttempt),
      s.temperatures.get? e = some 0 →
      s.sensor_error.get? e = some false →
      s.api_error.get? e = some false →
      s.hvac_active.get? e = some av →
      av ≠ some false →
      (cycle_room s e (s.temperatures.val e) oracle).map Prod.snd =
        some [(e, false)] ∧
      (cycle_room s e (s.temperatures.val e) oracle).map
        (fun p => p.1.hvac_active.get? e) = some (some (some false)) := by
  refine ⟨by decide, ?_⟩
  intro s e av oracle ht hs ha hv hne
  have hval : s.temperatures.val e = 0 := (PyDict.get?_eq_some_iff.mp ht).2
  rw [hval, cycle_room_eq_branch s e 0 oracle av hs ha hv]
  have h30 : ¬ (0 : ℚ) > 30 := by norm_num
  rw [if_neg (fun hh => h30 hh.1), if_pos ⟨h30, hne⟩]
  exact ⟨rfl, congrArg some (PyDict.get?_set_self _ _ _)⟩

/-- C9, witness: the fresh service state at room1 (`hvac_active = None`). -/
theorem C9_witness :
    MiddlewareService.init.temperatures.get? "room1" = some 0 ∧
    (cycle_room MiddlewareService.init "room1"
      (MiddlewareService.init.temperatures.val "room1") (failOracle "room1")).map
      Prod.snd = some [("room1", false)] ∧
    (cycle_room MiddlewareService.init "room1"
      (MiddlewareService.init.temperatures.val "room1") (failOracle "room1")).map
      (fun p => p.1.hvac_active.get? "room1") = some (some (some false)) := by
  obtain ⟨h1, h2⟩ := C9_init_zero_deactivates.2 MiddlewareService.init "room1"
    none (failOracle "room1") (by decide) (by decide) (by decide) (by decide) (by decide)
  exact ⟨C9_init_zero_deactivates.1 "room1" (by decide), h1, h2⟩

/-- C10: once `backendFault` is true for an entity, any sequence of
control-loop cycles issues no backend call for that entity and never clears
the flag — only an action outside the loop can reset it. -/
theorem C10_fault_latches (s : MiddlewareService) (e : String)
    (h : s.api_error.get? e = some true) :
    ∀ oracles : List (String → Bool → Nat → SendAttempt),
      (run_cycles s oracles).1.api_error.get? e = some true ∧
      ∀ c ∈ (run_cycles s oracles).2, c.1 ≠ e := by
  have haux : ∀ (oracles : List (String → Bool → Nat → SendAttempt))
      (s2 : MiddlewareService), s2.api_error.get? e = some true →
      (run_cycles s2 oracles).1.api_error.get? e = some true ∧
      ∀ c ∈ (run_cycles s2 oracles).2, c.1 ≠ e := by
    intro oracles
    induction oracles with
    | nil =>
      intro s2 h2
      exact ⟨h2, by simp [run_cycles]⟩
    | cons o os ih =>
      intro s2 h2
      have hsk : entitySkips s2 e (s2.temperatures.val e) :=
        Or.inr (Or.inl (by simp [h2]))
      obtain ⟨hview, hcalls⟩ := run_cycle_skips s2 e o hsk
      have hapi : (run_cycle s2 o).1.api_error.get? e = some true :=
        (entityView_api hview).trans h2
      obtain ⟨ih1, ih2⟩ := ih (run_cycle s2 o).1 hapi
      constructor
      · exact ih1
      · intro c hc
        simp only [run_cycles, List.mem_append] at hc
        rcases hc with hc | hc
        · exact hcalls c hc
        · exact ih2 c hc
  exact fun oracles => haux oracles s h

/-- C10, witness: room1 in backend fault stays faulted across a cycle. -/
theorem C10_witness :
    (run_cycles s_room1_api_fault [failOracle]).1.api_error.get? "room1" =
      some true :=
  (C10_fault_latches s_room1_api_fault "room1" (by decide) [failOracle]).1

end Middleware
